import Mathlib

/-!
Shallow embedding of the Komga source adapter
(`src/src/Komga/Komga.ts`, versions 1.1.2 and 1.1.3, and the earlier
variant in `src/unnamed/part_000`).  Pure translation logic is embedded
as Lean functions; the persistent key-value settings store is explicit
state; HTTP responses are passed in as arguments (the server is a
function from page index to content for the polling loop).  JS numbers
that hold page indices and sizes are `Nat`; timestamps (`Date` values
compared with `>=`) are `Int` milliseconds.
-/

/-- Manga status enumeration of the host library
(paperback-extensions-common). Only the constructors relevant to this
adapter are listed, plus `UNKNOWN` standing for the remaining values. -/
inductive MangaStatus where
  | COMPLETED
  | ONGOING
  | ABANDONED
  | HIATUS
  | UNKNOWN
deriving DecidableEq

/-- Komga.ts lines 566-578 (v1.1.3; identical at lines 47-59 of v1.1.2
and part_000 lines 39-51): the `switch` on the Komga status string,
falling through to `MangaStatus.ONGOING` for any unmatched value. -/
def parseMangaStatus (komgaStatus : String) : MangaStatus :=
  if komgaStatus = "ENDED" then MangaStatus.COMPLETED
  else if komgaStatus = "ONGOING" then MangaStatus.ONGOING
  else if komgaStatus = "ABANDONED" then MangaStatus.ONGOING
  else if komgaStatus = "HIATUS" then MangaStatus.ONGOING
  else MangaStatus.ONGOING

/-- Komga.ts line 561: the media types served without conversion. -/
def SUPPORTED_IMAGE_TYPES : List String :=
  ["image/jpeg", "image/png", "image/gif", "image/webp", "application/pdf"]

/-- Komga.ts line 564: number of items requested for paged requests. -/
def PAGE_SIZE : Nat := 40

/-- JavaScript `s.slice(-1)`: the one-character string holding the last
character, or the empty string when `s` is empty. -/
def jsSliceLast (s : String) : String :=
  match s.data.getLast? with
  | some c => String.mk [c]
  | none => ""

/-- Komga.ts lines 623-625: append `api/v1` to the server address,
inserting a `/` unless the address already ends with one. -/
def createKomgaAPI (serverAddress : String) : String :=
  serverAddress ++ (if jsSliceLast serverAddress = "/" then "api/v1" else "/api/v1")

/-- Standard base64 alphabet. -/
def base64Alphabet : List Char :=
  "ABCDEFGHIJKLMNOPQRSTUVWXYZabcdefghijklmnopqrstuvwxyz0123456789+/".data

/-- Character of the base64 alphabet at index `n`. -/
def base64Char (n : Nat) : Char := base64Alphabet.getD n '='

/-- Split a byte list into chunks of three. -/
def chunk3 : List Nat → List (List Nat)
  | [] => []
  | b0 :: b1 :: b2 :: rest => [b0, b1, b2] :: chunk3 rest
  | l => [l]

/-- Encode one chunk of at most three bytes as four base64 characters
with `=` padding. -/
def base64EncodeChunk : List Nat → String
  | [b0] =>
      String.mk [base64Char (b0 / 4), base64Char (b0 % 4 * 16), '=', '=']
  | [b0, b1] =>
      String.mk [base64Char (b0 / 4), base64Char (b0 % 4 * 16 + b1 / 16),
                 base64Char (b1 % 16 * 4), '=']
  | [b0, b1, b2] =>
      String.mk [base64Char (b0 / 4), base64Char (b0 % 4 * 16 + b1 / 16),
                 base64Char (b1 % 16 * 4 + b2 / 64), base64Char (b2 % 64)]
  | _ => ""

/-- Base64-encode a byte list. -/
def base64Encode (bytes : List Nat) : String :=
  String.join ((chunk3 bytes).map base64EncodeChunk)

/-- Node `Buffer.from(s, 'binary')`: each UTF-16 code unit truncated to
its low byte (for the BMP characters a settings form carries, the code
unit is the character's scalar value). -/
def jsBinaryBytes (s : String) : List Nat :=
  s.data.map (fun c => c.toNat % 256)

/-- Komga.ts lines 620-622: `"Basic " + Buffer.from(username + ":" +
password, 'binary').toString('base64')`. -/
def createAuthorizationString (username password : String) : String :=
  "Basic " ++ base64Encode (jsBinaryBytes (username ++ ":" ++ password))

example : parseMangaStatus "ENDED" = MangaStatus.COMPLETED := by decide
example : createKomgaAPI "http://a/" = "http://a/api/v1" := by decide
example : createKomgaAPI "http://a" = "http://a/api/v1" := by decide
example : createAuthorizationString "u" "p" = "Basic dTpw" := by decide

/-! Request interception (KomgaRequestInterceptor, Komga.ts lines 581-615). -/

/-- Header map of a request; the adapter only reads and writes the
`authorization` entry. -/
structure Headers where
  authorization : Option String
deriving DecidableEq

/-- Outgoing HTTP request as the interceptor sees it; `headers` is
`none` when the request object carries no header map at all. -/
structure Request where
  url : String
  method : String
  headers : Option Headers
deriving DecidableEq

/-- HTTP response handed to `interceptResponse`. -/
structure Response where
  data : String
  status : Nat
deriving DecidableEq

/-- Komga.ts lines 584-591: read the stored authorization string,
failing when the store holds none. -/
def getAuthorizationString (stored : Option String) : Except String String :=
  match stored with
  | none => Except.error "Unset credentials in source settings"
  | some s => Except.ok s

/-- Komga.ts lines 594-596: responses pass through unmodified. -/
def interceptResponse (response : Response) : Response := response

/-- Komga.ts lines 598-614: initialise `headers` to the empty map when
undefined, then inject the stored authorization string only when the
request does not already carry an `authorization` header. -/
def interceptRequest (stored : Option String) (request : Request) : Except String Request :=
  let headers := request.headers.getD { authorization := none }
  let request := { request with headers := some headers }
  match headers.authorization with
  | some _ => Except.ok request
  | none =>
    match getAuthorizationString stored with
    | Except.error e => Except.error e
    | Except.ok auth => Except.ok { request with headers := some { authorization := some auth } }

/-! Settings form submission (Komga.ts lines 1117-1170, v1.1.3). -/

/-- The five persistent keys of the settings store; `none` models a key
never stored. -/
structure KomgaSettingsState where
  serverAddress : Option String
  serverUsername : Option String
  serverPassword : Option String
  authorization : Option String
  komgaAPI : Option String
deriving DecidableEq

/-- The submitted settings form: the three input fields declared by the
source menu (Komga.ts lines 1044-1064). -/
structure SettingsForm where
  serverAddress : String
  serverUsername : String
  serverPassword : String
deriving DecidableEq

/-- Komga.ts lines 1117-1170 (v1.1.3): `submitSourceMenuItemForm` over
explicit store state.  The connectivity-test response is passed in as
`testStatus` (`none` models a transport failure of the scheduled
request, `some s` an HTTP status `s`).  The `Object.keys(form).forEach`
loop at lines 1120-1122 calls `stateManager.store` for every submitted
field before the connectivity test; a JS store call starts its write
eagerly when invoked (the later `throw` does not cancel it), so those
writes are applied to the state unconditionally.  The five stores at
lines 1162-1167 are only issued after a 200 status. -/
def submitSourceMenuItemForm (st : KomgaSettingsState) (form : SettingsForm)
    (testStatus : Option Nat) : Except String Unit × KomgaSettingsState :=
  let st1 : KomgaSettingsState :=
    { st with serverAddress := some form.serverAddress,
              serverUsername := some form.serverUsername,
              serverPassword := some form.serverPassword }
  let authorization := createAuthorizationString form.serverUsername form.serverPassword
  let komgaAPI := createKomgaAPI form.serverAddress
  match testStatus with
  | none => (Except.error "Could not connect to server", st1)
  | some 200 =>
      (Except.ok (),
        { st1 with authorization := some authorization, komgaAPI := some komgaAPI })
  | some 401 => (Except.error "401 Unauthorized: Invalid credentials", st1)
  | some s => (Except.error ("Connection failed with status code " ++ toString s), st1)

/-! Search, view-more and chapter details (Komga.ts lines 748-942). -/

/-- Series summary as read from a paged `/series` response entry:
`serie.id` and `serie.metadata.title`. -/
structure SerieSummary where
  id : String
  title : String
deriving DecidableEq

/-- Icon text wrapper used for tile titles and subtitles. -/
structure IconText where
  text : String
deriving DecidableEq

/-- Tile of a search listing or home section. -/
structure MangaTile where
  id : String
  title : IconText
  image : String
  subtitleText : IconText
deriving DecidableEq

/-- The continuation metadata attached to paged results. -/
structure PagedMetadata where
  page : Nat
deriving DecidableEq

/-- Paged results returned by search and view-more. -/
structure PagedResults where
  results : List MangaTile
  metadata : Option PagedMetadata
deriving DecidableEq

/-- Komga.ts lines 793-841: `searchRequest`.  `title` is the optional
search filter (it only shapes the request query string, never the
response translation); `metadata` is the incoming continuation cursor
(`metadata?.page ?? 0`); `content` is the `result.content` list of the
server response. -/
def searchRequest (komgaAPI : String) (title : Option String)
    (metadata : Option PagedMetadata) (content : List SerieSummary) : PagedResults :=
  let page : Nat := match metadata with | some m => m.page | none => 0
  let tiles : List MangaTile := content.map (fun serie =>
    { id := serie.id
      title := { text := serie.title }
      image := komgaAPI ++ "/series/" ++ serie.id ++ "/thumbnail"
      subtitleText := { text := "id: " ++ serie.id } })
  { results := tiles
    metadata := if tiles.length = 0 then none else some { page := page + 1 } }

/-- Komga.ts lines 911-942: `getViewMoreItems`.  `homepageSectionId`
only shapes the request URL; the response translation is the same tile
loop as in `searchRequest`. -/
def getViewMoreItems (komgaAPI : String) (homepageSectionId : String)
    (metadata : Option PagedMetadata) (content : List SerieSummary) : PagedResults :=
  let page : Nat := match metadata with | some m => m.page | none => 0
  let tiles : List MangaTile := content.map (fun serie =>
    { id := serie.id
      title := { text := serie.title }
      image := komgaAPI ++ "/series/" ++ serie.id ++ "/thumbnail"
      subtitleText := { text := "id: " ++ serie.id } })
  { results := tiles
    metadata := if tiles.length = 0 then none else some { page := page + 1 } }

/-- One entry of the `/books/{id}/pages` response: `page.number` and
`page.mediaType`. -/
structure PageEntry where
  number : Nat
  mediaType : String
deriving DecidableEq

/-- Chapter content returned by `getChapterDetails`. -/
structure ChapterDetails where
  id : String
  mangaId : String
  pages : List String
  longStrip : Bool
deriving DecidableEq

/-- Komga.ts lines 748-790: `getChapterDetails`.  `pagesResult` is the
parsed page-list response; `readingDirection` is
`serieResult.metadata.readingDirection` from the series response. -/
def getChapterDetails (komgaAPI mangaId chapterId : String)
    (pagesResult : List PageEntry) (readingDirection : String) : ChapterDetails :=
  let pages : List String := pagesResult.map (fun page =>
    if SUPPORTED_IMAGE_TYPES.contains page.mediaType then
      komgaAPI ++ "/books/" ++ chapterId ++ "/pages/" ++ toString page.number
    else
      komgaAPI ++ "/books/" ++ chapterId ++ "/pages/" ++ toString page.number ++ "?convert=png")
  let longStrip := (["VERTICAL", "WEBTOON"] : List String).contains readingDirection
  { id := chapterId
    longStrip := longStrip
    mangaId := mangaId
    pages := pages }

/-! Update polling (Komga.ts lines 944-992; identical logic at v1.1.2
lines 373-423 and part_000 lines 362-413). -/

/-- One entry of a `/series/updated/` response page: `serie.id` and the
time value of `new Date(serie.metadata.lastModified)` in milliseconds. -/
structure UpdatedSerie where
  id : String
  lastModified : Int
deriving DecidableEq

/-- JavaScript strict equality between a candidate id string and a
parsed series object, as evaluated element-wise by `ids.includes(serie)`
at Komga.ts line 969: `Array.prototype.includes` uses SameValueZero, and
a string primitive is never equal to an object, so each comparison is
`false`.  (The code passes the series object `serie`, not `serie.id`.) -/
def jsStrEqIdSerie (_candidate : String) (_serie : UpdatedSerie) : Bool := false

/-- Komga.ts line 969: `ids.includes(serie)` with `ids : string[]` and
`serie` the series JSON object. -/
def jsIncludesSerie (ids : List String) (serie : UpdatedSerie) : Bool :=
  ids.any (fun candidate => jsStrEqIdSerie candidate serie)

/-- Komga.ts lines 965-977: the inner `for` loop over one page's
`result.content`.  Returns the accumulator after the loop and whether an
item older than the cutoff was hit (which sets `loadMore = false` and
breaks). -/
def scanPage (ids : List String) (time : Int) :
    List UpdatedSerie → List UpdatedSerie → List UpdatedSerie × Bool
  | [], foundIds => (foundIds, false)
  | serie :: rest, foundIds =>
    if serie.lastModified ≥ time then
      scanPage ids time rest
        (if jsIncludesSerie ids serie then foundIds ++ [serie] else foundIds)
    else
      (foundIds, true)

/-- Komga.ts lines 954-991: the `while (loadMore)` loop of
`filterUpdatedManga`.  `server` maps a page index to that page's
`result.content`; `fuel` bounds the number of iterations modelled (the
source loop has no such bound).  Returns the trace of
`mangaUpdatesFoundCallback` invocations (each carrying the `foundIds`
accumulator at emission time — note the code pushes the series objects
themselves), the final value of the `page` counter, and whether the loop
exited by its own termination conditions within `fuel` iterations. -/
def filterUpdatedMangaRun (ids : List String) (time : Int)
    (server : Nat → List UpdatedSerie) :
    Nat → Nat → List UpdatedSerie → List (List UpdatedSerie) × Nat × Bool
  | 0, page, _ => ([], page, false)
  | fuel + 1, page, foundIds =>
    let content := server page
    let scanned := scanPage ids time content foundIds
    let hitOlder := scanned.2
    let loadMore := !hitOlder && !(content.length == 0)
    let emitted := if scanned.1.length > 0 then [scanned.1] else []
    if loadMore then
      let rest := filterUpdatedMangaRun ids time server fuel (page + 1) scanned.1
      (emitted ++ rest.1, rest.2.1, rest.2.2)
    else
      (emitted, page + 1, true)

/-- Komga.ts lines 944-992: `filterUpdatedManga`, starting at page 0
with an empty accumulator. -/
def filterUpdatedManga (ids : List String) (time : Int)
    (server : Nat → List UpdatedSerie) (fuel : Nat) :
    List (List UpdatedSerie) × Nat × Bool :=
  filterUpdatedMangaRun ids time server fuel 0 []

/-- Tile shape as the specification words it: the entry's id, its
metadata title as the title text, image URL
`{komgaAPI}/series/{id}/thumbnail`, and subtitle `"id: "` plus the id
(spec-side description used by refinement claim C9). -/
def specTile (komgaAPI : String) (serie : SerieSummary) : MangaTile :=
  { id := serie.id
    title := { text := serie.title }
    image := komgaAPI ++ "/series/" ++ serie.id ++ "/thumbnail"
    subtitleText := { text := "id: " ++ serie.id } }

/-! Theorems for the claims. -/

/-- C7: for every server-address string, `createKomgaAPI` returns the
address with `"api/v1"` appended when the address ends in `"/"`, and the
address with `"/api/v1"` appended otherwise. -/
theorem createKomgaAPI_slash_normalization (s : String) :
    (s.data.getLast? = some '/' → createKomgaAPI s = s ++ "api/v1")
  ∧ (s.data.getLast? ≠ some '/' → createKomgaAPI s = s ++ "/api/v1") := by
  constructor
  · intro h
    simp [createKomgaAPI, jsSliceLast, h]
  · intro h
    unfold createKomgaAPI jsSliceLast
    match hc : s.data.getLast? with
    | none => simp
    | some c =>
      have hcne : c ≠ '/' := fun hceq => h (hceq ▸ hc)
      simp [String.ext_iff, hcne]

/-- C7 witness: concrete addresses with and without a trailing slash. -/
theorem createKomgaAPI_slash_normalization_witness :
    createKomgaAPI "http://127.0.0.1:8080/" = "http://127.0.0.1:8080/" ++ "api/v1"
  ∧ createKomgaAPI "http://127.0.0.1:8080" = "http://127.0.0.1:8080" ++ "/api/v1" :=
  ⟨(createKomgaAPI_slash_normalization "http://127.0.0.1:8080/").1 (by decide),
   (createKomgaAPI_slash_normalization "http://127.0.0.1:8080").2 (by decide)⟩

/-- C8: `parseMangaStatus` maps `"ENDED"` to `COMPLETED`, `"ONGOING"`,
`"ABANDONED"` and `"HIATUS"` to `ONGOING`, every other string also to
`ONGOING`, and never returns any other value. -/
theorem parseMangaStatus_total_mapping :
    parseMangaStatus "ENDED" = MangaStatus.COMPLETED
  ∧ parseMangaStatus "ONGOING" = MangaStatus.ONGOING
  ∧ parseMangaStatus "ABANDONED" = MangaStatus.ONGOING
  ∧ parseMangaStatus "HIATUS" = MangaStatus.ONGOING
  ∧ (∀ s, s ≠ "ENDED" → parseMangaStatus s = MangaStatus.ONGOING)
  ∧ (∀ s, parseMangaStatus s = MangaStatus.COMPLETED ∨ parseMangaStatus s = MangaStatus.ONGOING) := by
  refine ⟨by decide, by decide, by decide, by decide, fun s h => ?_, fun s => ?_⟩
  · unfold parseMangaStatus
    rw [if_neg h]
    split_ifs <;> rfl
  · unfold parseMangaStatus
    split_ifs <;> simp

/-- C8 witness: a string outside the four known statuses maps to
`ONGOING`. -/
theorem parseMangaStatus_total_mapping_witness :
    parseMangaStatus "CANCELLED" = MangaStatus.ONGOING :=
  parseMangaStatus_total_mapping.2.2.2.2.1 "CANCELLED" (by decide)

/-- C4: a `searchRequest` call with page cursor `p` whose server
response has non-empty content returns metadata carrying cursor `p + 1`,
and one whose response has empty content returns no metadata. -/
theorem searchRequest_pagination (api : String) (title : Option String) (p : Nat)
    (content : List SerieSummary) :
    (content ≠ [] → (searchRequest api title (some ⟨p⟩) content).metadata = some ⟨p + 1⟩)
  ∧ (content = [] → (searchRequest api title (some ⟨p⟩) content).metadata = none) := by
  constructor
  · intro h
    simp [searchRequest, List.length_eq_zero, h]
  · intro h
    subst h
    simp [searchRequest]

/-- C4 witness: page 0 returning 40 items carries cursor 1; page 1
returning 0 items carries no cursor. -/
theorem searchRequest_pagination_witness :
    (searchRequest "http://k/api/v1" none (some ⟨0⟩)
        (List.replicate 40 ⟨"s", "t"⟩)).metadata = some ⟨1⟩
  ∧ (searchRequest "http://k/api/v1" none (some ⟨1⟩) []).metadata = none :=
  ⟨(searchRequest_pagination "http://k/api/v1" none 0 (List.replicate 40 ⟨"s", "t"⟩)).1
      (by decide),
   (searchRequest_pagination "http://k/api/v1" none 1 []).2 rfl⟩

/-- C9: on the same API base, page cursor and response content,
`getViewMoreItems` returns exactly the `PagedResults` of `searchRequest`
with no title filter; both map each content entry in order to the
spec-described tile and carry continuation metadata exactly when the
tile list is non-empty. -/
theorem getViewMoreItems_eq_searchRequest (api sectionId : String)
    (metadata : Option PagedMetadata) (content : List SerieSummary) :
    getViewMoreItems api sectionId metadata content = searchRequest api none metadata content
  ∧ (getViewMoreItems api sectionId metadata content).results = content.map (specTile api)
  ∧ ((getViewMoreItems api sectionId metadata content).metadata
      = some ⟨(match metadata with | some m => m.page | none => 0) + 1⟩ ↔ content ≠ []) := by
  refine ⟨rfl, rfl, ?_⟩
  simp only [getViewMoreItems, List.length_map, List.length_eq_zero]
  split_ifs with h
  · simp [h]
  · simp [h]

/-- C6: `getChapterDetails` sets `longStrip` to true exactly when the
series reading direction is `"VERTICAL"` or `"WEBTOON"`; in particular
true for `"WEBTOON"` and false for `"LEFT_TO_RIGHT"`. -/
theorem getChapterDetails_longStrip (api mid cid : String) (res : List PageEntry)
    (dir : String) :
    ((getChapterDetails api mid cid res dir).longStrip = true
      ↔ dir = "VERTICAL" ∨ dir = "WEBTOON")
  ∧ (getChapterDetails api mid cid res "WEBTOON").longStrip = true
  ∧ (getChapterDetails api mid cid res "LEFT_TO_RIGHT").longStrip = false := by
  refine ⟨?_, rfl, rfl⟩
  show ((["VERTICAL", "WEBTOON"] : List String).contains dir = true) ↔ _
  rw [List.elem_iff]
  simp [eq_comm]

/-- C5: for every entry of the book-pages response, `getChapterDetails`
builds the page URL without a convert query exactly when the entry's
media type is in `SUPPORTED_IMAGE_TYPES`, and appends `?convert=png`
otherwise. -/
theorem getChapterDetails_pageUrls (api mid cid : String) (res : List PageEntry)
    (dir : String) (i : Nat) (page : PageEntry) (hpage : res[i]? = some page) :
    (page.mediaType ∈ SUPPORTED_IMAGE_TYPES →
      (getChapterDetails api mid cid res dir).pages[i]?
        = some (api ++ "/books/" ++ cid ++ "/pages/" ++ toString page.number))
  ∧ (page.mediaType ∉ SUPPORTED_IMAGE_TYPES →
      (getChapterDetails api mid cid res dir).pages[i]?
        = some (api ++ "/books/" ++ cid ++ "/pages/" ++ toString page.number ++ "?convert=png")) := by
  constructor <;> intro h
  · have hc : SUPPORTED_IMAGE_TYPES.contains page.mediaType = true := List.elem_iff.mpr h
    simp [getChapterDetails, List.getElem?_map, hpage, hc]
    exact fun hn => absurd h hn
  · have hc : SUPPORTED_IMAGE_TYPES.contains page.mediaType = false := by
      rw [Bool.eq_false_iff]
      exact fun hcc => h (List.elem_iff.mp hcc)
    simp [getChapterDetails, List.getElem?_map, hpage, hc]
    exact fun hm => absurd hm h

/-- C5 witness: a `"image/webp"` page gets the direct URL and an
`"application/octet-stream"` page gets `?convert=png` appended. -/
theorem getChapterDetails_pageUrls_witness :
    (getChapterDetails "http://k/api/v1" "m" "c"
        [⟨0, "image/webp"⟩, ⟨1, "application/octet-stream"⟩] "LEFT_TO_RIGHT").pages[0]?
      = some "http://k/api/v1/books/c/pages/0"
  ∧ (getChapterDetails "http://k/api/v1" "m" "c"
        [⟨0, "image/webp"⟩, ⟨1, "application/octet-stream"⟩] "LEFT_TO_RIGHT").pages[1]?
      = some "http://k/api/v1/books/c/pages/1?convert=png" :=
  ⟨by simpa using
      (getChapterDetails_pageUrls "http://k/api/v1" "m" "c"
        [⟨0, "image/webp"⟩, ⟨1, "application/octet-stream"⟩] "LEFT_TO_RIGHT" 0
        ⟨0, "image/webp"⟩ rfl).1 (by decide),
   by simpa using
      (getChapterDetails_pageUrls "http://k/api/v1" "m" "c"
        [⟨0, "image/webp"⟩, ⟨1, "application/octet-stream"⟩] "LEFT_TO_RIGHT" 1
        ⟨1, "application/octet-stream"⟩ rfl).2 (by decide)⟩

/-- C3: `interceptRequest` returns a request untouched when it already
carries an authorization header, injects the stored authorization string
when the header is unset, fails with the unset-credentials error when
none is stored, and `interceptResponse` returns every response
unmodified. -/
theorem interceptRequest_auth_injection (stored : Option String) (request : Request) :
    (∀ h a, request.headers = some h → h.authorization = some a →
        interceptRequest stored request = Except.ok request)
  ∧ ((request.headers.getD { authorization := none }).authorization = none →
      stored = none →
        interceptRequest stored request = Except.error "Unset credentials in source settings")
  ∧ (∀ s, (request.headers.getD { authorization := none }).authorization = none →
      stored = some s →
        interceptRequest stored request
          = Except.ok { request with headers := some { authorization := some s } })
  ∧ (∀ response, interceptResponse response = response) := by
  refine ⟨fun h a hh ha => ?_, fun hauth hst => ?_, fun s hauth hst => ?_, fun _ => rfl⟩
  · obtain ⟨url, method, headers⟩ := request
    cases hh
    simp [interceptRequest, ha]
  · subst hst
    simp [interceptRequest, hauth, getAuthorizationString]
  · subst hst
    simp [interceptRequest, hauth, getAuthorizationString]

/-- C3 witness: a request with an explicit authorization header passes
through untouched; one without fails when no string is stored and gets
the stored string injected otherwise; a response passes through. -/
theorem interceptRequest_auth_injection_witness :
    interceptRequest (some "Basic st")
        { url := "u", method := "GET", headers := some { authorization := some "Basic fresh" } }
      = Except.ok { url := "u", method := "GET", headers := some { authorization := some "Basic fresh" } }
  ∧ interceptRequest none { url := "u", method := "GET", headers := none }
      = Except.error "Unset credentials in source settings"
  ∧ interceptRequest (some "Basic st") { url := "u", method := "GET", headers := none }
      = Except.ok { url := "u", method := "GET", headers := some { authorization := some "Basic st" } }
  ∧ interceptResponse { data := "d", status := 200 } = { data := "d", status := 200 } :=
  ⟨(interceptRequest_auth_injection (some "Basic st")
      { url := "u", method := "GET", headers := some { authorization := some "Basic fresh" } }).1
      { authorization := some "Basic fresh" } "Basic fresh" rfl rfl,
   (interceptRequest_auth_injection none
      { url := "u", method := "GET", headers := none }).2.1 rfl rfl,
   (interceptRequest_auth_injection (some "Basic st")
      { url := "u", method := "GET", headers := none }).2.2.1 "Basic st" rfl rfl,
   (interceptRequest_auth_injection none
      { url := "u", method := "GET", headers := none }).2.2.2
      { data := "d", status := 200 }⟩

/-- C1: the claim says a failed connectivity test leaves all five
stored settings keys unchanged.  On the code (Komga.ts v1.1.3 lines
1117-1170), the `Object.keys(form).forEach` loop at lines 1120-1122
stores the three raw form fields before the test is made, so after a 401
response `serverAddress`, `serverUsername` and `serverPassword` are
already overwritten (contradicting the claim and the comment at line
1160), while `authorization` and `komgaAPI` keep their previous values;
after a 200 response all five keys hold the newly derived values. -/
theorem submitSourceMenuItemForm_persists_on_failure :
    (let st0 : KomgaSettingsState :=
      { serverAddress := some "http://old/", serverUsername := some "olduser",
        serverPassword := some "oldpass", authorization := some "Basic OLD",
        komgaAPI := some "http://old/api/v1" }
     let r := submitSourceMenuItemForm st0 ⟨"http://new", "u", "p"⟩ (some 401)
     r.1 = Except.error "401 Unauthorized: Invalid credentials"
     ∧ r.2.serverAddress = some "http://new"
     ∧ r.2.serverUsername = some "u"
     ∧ r.2.serverPassword = some "p"
     ∧ r.2.authorization = some "Basic OLD"
     ∧ r.2.komgaAPI = some "http://old/api/v1")
  ∧ (let st0 : KomgaSettingsState :=
      { serverAddress := some "http://old/", serverUsername := some "olduser",
        serverPassword := some "oldpass", authorization := some "Basic OLD",
        komgaAPI := some "http://old/api/v1" }
     let r := submitSourceMenuItemForm st0 ⟨"http://new", "u", "p"⟩ (some 200)
     r.1 = Except.ok ()
     ∧ r.2 = { serverAddress := some "http://new", serverUsername := some "u",
               serverPassword := some "p", authorization := some "Basic dTpw",
               komgaAPI := some "http://new/api/v1" }) := by
  exact ⟨⟨rfl, rfl, rfl, rfl, rfl, rfl⟩, ⟨rfl, by decide⟩⟩

/-- C2: the claim says a page-0 item newer than the cutoff whose id is
among the candidates makes `mangaUpdatesFoundCallback` fire with that
id.  On the code, `ids.includes(serie)` (Komga.ts line 969) compares the
candidate id strings with the series object itself, which never matches,
so with cutoff 5, candidates `["a"]`, page 0 holding the matching item
`{id := "a", lastModified := 10}` and page 1 empty, the callback trace
is empty; the loop does terminate right after processing page 1 (final
page counter 2, clean exit). -/
theorem filterUpdatedManga_never_matches :
    filterUpdatedManga ["a"] 5 (fun p => if p = 0 then [{ id := "a", lastModified := 10 }] else []) 2
      = ([], 2, true) := by
  decide

/-- Helper: the inner page scan only ever appends to the accumulator,
so the incoming accumulator is a prefix of the outgoing one. -/
theorem scanPage_extends (ids : List String) (time : Int) :
    ∀ (content foundIds : List UpdatedSerie),
      foundIds <+: (scanPage ids time content foundIds).1
  | [], _ => List.prefix_refl _
  | serie :: rest, foundIds => by
    unfold scanPage
    split_ifs with h1 h2
    · exact (List.prefix_append _ _).trans (scanPage_extends ids time rest _)
    · exact scanPage_extends ids time rest _
    · exact List.prefix_refl _

/-- Helper: every batch emitted during the polling loop extends the
accumulator value the loop carried when the batch was reached. -/
theorem filterRun_trace_extends (ids : List String) (time : Int)
    (server : Nat → List UpdatedSerie) :
    ∀ (fuel page : Nat) (foundIds : List UpdatedSerie),
      ∀ l ∈ (filterUpdatedMangaRun ids time server fuel page foundIds).1,
        foundIds <+: l := by
  intro fuel
  induction fuel with
  | zero =>
    intro page foundIds l hl
    simp [filterUpdatedMangaRun] at hl
  | succ n ih =>
    intro page foundIds l hl
    have hscan := scanPage_extends ids time (server page) foundIds
    simp only [filterUpdatedMangaRun] at hl
    split at hl
    · rw [List.mem_append] at hl
      rcases hl with hl | hl
      · split at hl
        · rw [List.mem_singleton] at hl
          exact hl ▸ hscan
        · exact absurd hl (List.not_mem_nil l)
      · exact hscan.trans (ih _ _ l hl)
    · split at hl
      · rw [List.mem_singleton] at hl
        exact hl ▸ hscan
      · exact absurd hl (List.not_mem_nil l)

/-- Helper: the emitted batches form a chain under the prefix order. -/
theorem filterRun_trace_pairwise (ids : List String) (time : Int)
    (server : Nat → List UpdatedSerie) :
    ∀ (fuel page : Nat) (foundIds : List UpdatedSerie),
      ((filterUpdatedMangaRun ids time server fuel page foundIds).1).Pairwise
        (fun a b => a <+: b) := by
  intro fuel
  induction fuel with
  | zero =>
    intro page foundIds
    simp [filterUpdatedMangaRun]
  | succ n ih =>
    intro page foundIds
    simp only [filterUpdatedMangaRun]
    split
    · rw [List.pairwise_append]
      refine ⟨?_, ih _ _, ?_⟩
      · split <;> simp
      · intro a ha b hb
        have ha1 : a = (scanPage ids time (server page) foundIds).1 := by
          split at ha
          · exact (List.mem_singleton.mp ha)
          · exact absurd ha (List.not_mem_nil a)
        exact ha1 ▸ filterRun_trace_extends ids time server n (page + 1) _ b hb
    · split <;> simp

/-- C10: within one `filterUpdatedManga` call the `foundIds`
accumulator is never cleared — each page scan only extends it, every
batch handed to `mangaUpdatesFoundCallback` extends the accumulator
carried into that iteration, the emitted batches form a prefix chain,
and so the id list of any later invocation contains every entry passed
to any earlier invocation. -/
theorem filterUpdatedManga_cumulative_batches :
    (∀ (ids : List String) (time : Int) (content foundIds : List UpdatedSerie),
        foundIds <+: (scanPage ids time content foundIds).1)
  ∧ (∀ (ids : List String) (time : Int) (server : Nat → List UpdatedSerie) (fuel : Nat),
        ((filterUpdatedManga ids time server fuel).1).Pairwise (fun a b => a <+: b))
  ∧ (∀ (ids : List String) (time : Int) (server : Nat → List UpdatedSerie) (fuel : Nat),
        ((filterUpdatedManga ids time server fuel).1).Pairwise
          (fun a b => ∀ x ∈ a, x ∈ b))
  ∧ (∀ (ids : List String) (time : Int) (server : Nat → List UpdatedSerie)
        (fuel page : Nat) (foundIds : List UpdatedSerie),
        ∀ l ∈ (filterUpdatedMangaRun ids time server fuel page foundIds).1,
          foundIds <+: l) :=
  ⟨fun ids time content foundIds => scanPage_extends ids time content foundIds,
   fun ids time server fuel => filterRun_trace_pairwise ids time server fuel 0 [],
   fun ids time server fuel =>
     (filterRun_trace_pairwise ids time server fuel 0 []).imp
       (fun hab _ hx => List.IsPrefix.mem hx hab),
   fun ids time server fuel page foundIds =>
     filterRun_trace_extends ids time server fuel page foundIds⟩

/-- C10 witness: with a starting accumulator holding one collected
entry, the first emitted batch extends it. -/
theorem filterUpdatedManga_cumulative_batches_witness :
    [({ id := "x", lastModified := 0 } : UpdatedSerie)]
        ∈ (filterUpdatedMangaRun [] 0 (fun _ => []) 1 0
            [{ id := "x", lastModified := 0 }]).1
  ∧ [({ id := "x", lastModified := 0 } : UpdatedSerie)]
        <+: [{ id := "x", lastModified := 0 }] :=
  ⟨by decide,
   filterUpdatedManga_cumulative_batches.2.2.2 [] 0 (fun _ => []) 1 0
     [{ id := "x", lastModified := 0 }] [{ id := "x", lastModified := 0 }] (by decide)⟩
